import Mathlib

/-!
Verification of the automotive data pipeline scripts.

This file gives a shallow embedding, in Lean 4, of the core logic of the
three scripts of the repository:

* `scripts/glue_vehicle_sales_etl.py` — the Redshift upsert-merge protocol
  (the `preactions`/`postactions` SQL of `redshift_load`);
* `scripts/s3_upload_automation.py` — per-table snapshot selection in
  `DealershipDataProcessor.download_files` and the phase orchestration of
  `process_daily_exports` / `main`;
* `scripts/lambda_redshift_to_segment.py` — the delivered-set tracking,
  candidate query, validation, message-id derivation and delivery loop of
  `RedshiftToSegmentProcessor`.

Machine integers are modelled as `Nat` with explicit reduction modulo `2 ^ 32`
or `2 ^ 64` where the source (MD5 arithmetic) overflows.  Nullable SQL columns
are modelled as `Option` values, and SQL equality on them follows the SQL
three-valued logic collapsed to "predicate holds" (`NULL = x` never holds in a
`WHERE` clause).
-/

/-- Python string slicing `s[:n]` on a Lean string (list-of-chars model). -/
def pySlice (s : String) (n : Nat) : String :=
  String.mk (s.data.take n)

/-- Python's `str.endswith(suffix)` on the list-of-chars model. -/
def pyEndsWith (s suffix : String) : Bool :=
  suffix.data.isSuffixOf s.data

/-- Python's `c in s` membership test for a single character. -/
def pyContains (s : String) (c : Char) : Bool :=
  s.data.contains c

/-- Lexicographic order on character lists by code point, as both SQL and
Python compare text (and therefore ISO dates). -/
def lexLeChars : List Char → List Char → Bool
  | [], _ => true
  | _ :: _, [] => false
  | a :: as, b :: bs => if a < b then true else if b < a then false else lexLeChars as bs

/-- Lexicographic string comparison `a <= b`. -/
def strLe (a b : String) : Bool :=
  lexLeChars a.data b.data

/-! ### MD5 (model of Python's `hashlib.md5(...).hexdigest()`)

`hashlib` is an external library; the definitions below model its documented
semantics (RFC 1321) over byte lists, with 32-bit words as `Nat` reduced
modulo `2 ^ 32`.  The lambda function feeds it the UTF-8 encoding of an ASCII
format string, so UTF-8 encoding of characters is included. -/

/-- UTF-8 encoding of a single character, as a list of byte values. -/
def utf8Char (c : Char) : List Nat :=
  let n := c.toNat
  if n < 0x80 then [n]
  else if n < 0x800 then
    [0xC0 ||| (n >>> 6), 0x80 ||| (n &&& 0x3F)]
  else if n < 0x10000 then
    [0xE0 ||| (n >>> 12), 0x80 ||| ((n >>> 6) &&& 0x3F), 0x80 ||| (n &&& 0x3F)]
  else
    [0xF0 ||| (n >>> 18), 0x80 ||| ((n >>> 12) &&& 0x3F),
     0x80 ||| ((n >>> 6) &&& 0x3F), 0x80 ||| (n &&& 0x3F)]

/-- UTF-8 encoding of a string (Python's `str.encode()`). -/
def utf8Bytes (s : String) : List Nat :=
  s.data.flatMap utf8Char

/-- Addition of 32-bit words. -/
def add32 (a b : Nat) : Nat := (a + b) % 4294967296

/-- Bitwise complement of a 32-bit word. -/
def not32 (a : Nat) : Nat := a ^^^ 4294967295

/-- Left rotation of a 32-bit word by `s` places. -/
def rotl32 (x s : Nat) : Nat :=
  ((x <<< s) % 4294967296) ||| (x >>> (32 - s))

/-- The 64 MD5 round constants `K[i] = floor(abs(sin(i+1)) * 2^32)`. -/
def md5K : List Nat :=
  [0xd76aa478, 0xe8c7b756, 0x242070db, 0xc1bdceee,
   0xf57c0faf, 0x4787c62a, 0xa8304613, 0xfd469501,
   0x698098d8, 0x8b44f7af, 0xffff5bb1, 0x895cd7be,
   0x6b901122, 0xfd987193, 0xa679438e, 0x49b40821,
   0xf61e2562, 0xc040b340, 0x265e5a51, 0xe9b6c7aa,
   0xd62f105d, 0x02441453, 0xd8a1e681, 0xe7d3fbc8,
   0x21e1cde6, 0xc33707d6, 0xf4d50d87, 0x455a14ed,
   0xa9e3e905, 0xfcefa3f8, 0x676f02d9, 0x8d2a4c8a,
   0xfffa3942, 0x8771f681, 0x6d9d6122, 0xfde5380c,
   0xa4beea44, 0x4bdecfa9, 0xf6bb4b60, 0xbebfbc70,
   0x289b7ec6, 0xeaa127fa, 0xd4ef3085, 0x04881d05,
   0xd9d4d039, 0xe6db99e5, 0x1fa27cf8, 0xc4ac5665,
   0xf4292244, 0x432aff97, 0xab9423a7, 0xfc93a039,
   0x655b59c3, 0x8f0ccc92, 0xffeff47d, 0x85845dd1,
   0x6fa87e4f, 0xfe2ce6e0, 0xa3014314, 0x4e0811a1,
   0xf7537e82, 0xbd3af235, 0x2ad7d2bb, 0xeb86d391]

/-- The 64 MD5 per-round left-rotation amounts. -/
def md5S : List Nat :=
  [7, 12, 17, 22, 7, 12, 17, 22, 7, 12, 17, 22, 7, 12, 17, 22,
   5, 9, 14, 20, 5, 9, 14, 20, 5, 9, 14, 20, 5, 9, 14, 20,
   4, 11, 16, 23, 4, 11, 16, 23, 4, 11, 16, 23, 4, 11, 16, 23,
   6, 10, 15, 21, 6, 10, 15, 21, 6, 10, 15, 21, 6, 10, 15, 21]

/-- Little-endian byte decomposition of a value into `n` bytes. -/
def leBytes (n v : Nat) : List Nat :=
  (List.range n).map (fun i => (v >>> (8 * i)) % 256)

/-- MD5 padding: append `0x80`, zero bytes to 56 mod 64, then the 64-bit
little-endian bit length. -/
def md5Pad (msg : List Nat) : List Nat :=
  let len := msg.length
  let z := (119 - len % 64) % 64
  msg ++ [0x80] ++ List.replicate z 0 ++ leBytes 8 ((len * 8) % 18446744073709551616)

/-- Split a padded byte list (whose length is a multiple of 64) into its
64-byte blocks. -/
def toBlocks (l : List Nat) : List (List Nat) :=
  (List.range (l.length / 64)).map (fun i => (l.drop (64 * i)).take 64)

/-- One MD5 round: state `(a, b, c, d)`, round index `i`, message words `m`. -/
def md5Round (m : Nat → Nat) (st : Nat × Nat × Nat × Nat) (i : Nat) :
    Nat × Nat × Nat × Nat :=
  let (a, b, c, d) := st
  let f :=
    if i < 16 then (b &&& c) ||| (not32 b &&& d)
    else if i < 32 then (d &&& b) ||| (not32 d &&& c)
    else if i < 48 then b ^^^ c ^^^ d
    else c ^^^ (b ||| not32 d)
  let g :=
    if i < 16 then i
    else if i < 32 then (5 * i + 1) % 16
    else if i < 48 then (3 * i + 5) % 16
    else (7 * i) % 16
  let tmp := add32 (add32 (add32 f a) (md5K.getD i 0)) (m g)
  (d, add32 b (rotl32 tmp (md5S.getD i 0)), b, c)

/-- Process one 64-byte block, updating the running MD5 state. -/
def md5Block (st : Nat × Nat × Nat × Nat) (block : List Nat) :
    Nat × Nat × Nat × Nat :=
  let m := fun g =>
    block.getD (4 * g) 0 + block.getD (4 * g + 1) 0 * 256 +
      block.getD (4 * g + 2) 0 * 65536 + block.getD (4 * g + 3) 0 * 16777216
  let (a0, b0, c0, d0) := st
  let (a, b, c, d) := (List.range 64).foldl (md5Round m) (a0, b0, c0, d0)
  (add32 a0 a, add32 b0 b, add32 c0 c, add32 d0 d)

/-- Hexadecimal digit character for a value below 16. -/
def hexChar (n : Nat) : Char :=
  "0123456789abcdef".data.getD n '0'

/-- Two lowercase hexadecimal characters for one byte. -/
def byteHexChars (b : Nat) : List Char :=
  [hexChar (b / 16 % 16), hexChar (b % 16)]

/-- MD5 hex digest of a string: `hashlib.md5(s.encode()).hexdigest()`. -/
def md5Hex (s : String) : String :=
  let blocks := toBlocks (md5Pad (utf8Bytes s))
  let (a, b, c, d) :=
    blocks.foldl md5Block (0x67452301, 0xefcdab89, 0x98badcfe, 0x10325476)
  String.mk ((leBytes 4 a ++ leBytes 4 b ++ leBytes 4 c ++ leBytes 4 d).flatMap byteHexChars)

/-! ### Glue ETL: the Redshift upsert-merge (`scripts/glue_vehicle_sales_etl.py`)

`redshift_load` creates `source_data.vehicle_sales` (if absent) and an empty
staging table `vehicle_sales_temp` in `preactions`, bulk-loads the typed batch
into the staging table, and in `postactions` runs, in one transaction,
`DELETE FROM vehicle_sales USING vehicle_sales_temp WHERE` the four key
columns are SQL-equal, then `INSERT INTO vehicle_sales SELECT * FROM
vehicle_sales_temp`, then drops the staging table.

A table is modelled as a `List VSRow` (Redshift tables are bags of rows; no
uniqueness constraint is declared).  Every column of the `CREATE TABLE` is
nullable, so each field is an `Option`; `VARCHAR` is `Option String`,
`DECIMAL` is `Option Int` and `TIMESTAMP` is `Option Int` (the claims never
compute with the numeric or timestamp payloads, only compare them). -/

/-- One row of `source_data.vehicle_sales`, with the 59 columns of the
`CREATE TABLE` statement in `preactions`. -/
structure VSRow where
  dealno : Option String
  mbicarrier : Option String
  accountingaccount : Option String
  dealtype : Option String
  email1 : Option String
  homephone : Option String
  custno : Option String
  city : Option String
  state : Option String
  frontgross : Option Int
  backgross : Option Int
  contractdate : Option Int
  salesdate : Option Int
  weowesaletotal : Option Int
  ziporpostalcode : Option String
  crmsalesmgrname : Option String
  crmsp1name : Option String
  customercashdown : Option Int
  vin : Option String
  address : Option String
  apr : Option Int
  branch : Option String
  warrantyfee : Option Int
  year : Option String
  makename : Option String
  modelname : Option String
  cashprice : Option Int
  totalgross : Option Int
  color : Option String
  paymentamt : Option Int
  outthedoorprice : Option Int
  costprice : Option Int
  grossprofit : Option Int
  saletype : Option String
  trade1vin : Option String
  trade1acv : Option Int
  trade1payoff : Option Int
  trade1year : Option String
  nettrade1 : Option Int
  rowlastupdatedutc : Option Int
  stockno : Option String
  bodystyle : Option String
  vehiclemileage : Option Int
  modeltype : Option String
  fidealtype : Option String
  term : Option Int
  financesource : Option String
  financeamt : Option Int
  totaldown : Option Int
  payments : Option Int
  trade1makename : Option String
  trade1modelname : Option String
  trade1mileage : Option Int
  totaltradeallowance : Option Int
  leasetype : Option String
  cora_acct_code : Option String
  leasepayment : Option Int
  leasemileageallowance : Option Int
  leaseendvalue : Option Int
deriving DecidableEq, Repr

/-- A row with every column NULL, used as a base for concrete examples. -/
def nullRow : VSRow where
  dealno := none
  mbicarrier := none
  accountingaccount := none
  dealtype := none
  email1 := none
  homephone := none
  custno := none
  city := none
  state := none
  frontgross := none
  backgross := none
  contractdate := none
  salesdate := none
  weowesaletotal := none
  ziporpostalcode := none
  crmsalesmgrname := none
  crmsp1name := none
  customercashdown := none
  vin := none
  address := none
  apr := none
  branch := none
  warrantyfee := none
  year := none
  makename := none
  modelname := none
  cashprice := none
  totalgross := none
  color := none
  paymentamt := none
  outthedoorprice := none
  costprice := none
  grossprofit := none
  saletype := none
  trade1vin := none
  trade1acv := none
  trade1payoff := none
  trade1year := none
  nettrade1 := none
  rowlastupdatedutc := none
  stockno := none
  bodystyle := none
  vehiclemileage := none
  modeltype := none
  fidealtype := none
  term := none
  financesource := none
  financeamt := none
  totaldown := none
  payments := none
  trade1makename := none
  trade1modelname := none
  trade1mileage := none
  totaltradeallowance := none
  leasetype := none
  cora_acct_code := none
  leasepayment := none
  leasemileageallowance := none
  leaseendvalue := none

/-- SQL equality of two nullable column values as used in a `WHERE` clause:
the comparison holds only when both sides are non-NULL and equal (a
comparison involving NULL is unknown, and `WHERE` keeps only rows for which
the predicate is true). -/
def sqlEq {α : Type} [DecidableEq α] (a b : Option α) : Bool :=
  match a, b with
  | some x, some y => decide (x = y)
  | _, _ => false

/-- The delete predicate of the `postactions` transaction: the staging row
`t` SQL-matches the target row `r` on all four key columns
`dealno`, `custno`, `vin`, `rowlastupdatedutc`. -/
def keyMatch (t r : VSRow) : Bool :=
  sqlEq t.dealno r.dealno && sqlEq t.custno r.custno &&
    sqlEq t.vin r.vin && sqlEq t.rowlastupdatedutc r.rowlastupdatedutc

/-- The composite key of a row as a tuple of (nullable) column values. -/
def keyTuple (r : VSRow) :
    Option String × Option String × Option String × Option Int :=
  (r.dealno, r.custno, r.vin, r.rowlastupdatedutc)

/-- The `DELETE FROM vehicle_sales USING vehicle_sales_temp WHERE ...` step:
every target row SQL-matched by some staging row is removed. -/
def deleteMatching (target temp : List VSRow) : List VSRow :=
  target.filter (fun r => !(temp.any (fun t => keyMatch t r)))

/-- The `INSERT INTO vehicle_sales SELECT * FROM vehicle_sales_temp` step. -/
def insertAll (target temp : List VSRow) : List VSRow :=
  target ++ temp

/-- The whole `postactions` transaction of `redshift_load`: delete the
SQL-matched rows, then insert every staging row (the staging table holds
exactly the incoming typed batch, loaded by `preactions` and the bulk load). -/
def mergeUpsert (target batch : List VSRow) : List VSRow :=
  insertAll (deleteMatching target batch) batch

/-- A row has a complete composite key: all four key columns are non-NULL. -/
def keyComplete (r : VSRow) : Prop :=
  r.dealno ≠ none ∧ r.custno ≠ none ∧ r.vin ≠ none ∧ r.rowlastupdatedutc ≠ none

instance (r : VSRow) : Decidable (keyComplete r) := by
  unfold keyComplete
  infer_instance

/-- Key-uniqueness of a table in the sense of the spec's invariant: no two
rows (at distinct positions) carry the same composite key tuple. -/
def keyUniqueTuple (t : List VSRow) : Prop :=
  t.Pairwise (fun a b => keyTuple a ≠ keyTuple b)

/-- Key-uniqueness up to SQL matching: no two rows (at distinct positions)
SQL-match on the composite key.  Rows with a NULL key column never SQL-match
anything, so only fully keyed duplicates count. -/
def keyUniqueSql (t : List VSRow) : Prop :=
  t.Pairwise (fun a b => keyMatch a b = false)

instance (t : List VSRow) : Decidable (keyUniqueTuple t) := by
  unfold keyUniqueTuple
  infer_instance

instance (t : List VSRow) : Decidable (keyUniqueSql t) := by
  unfold keyUniqueSql
  infer_instance

/-! ### Ingestion: snapshot selection and run orchestration
(`scripts/s3_upload_automation.py`)

`download_files` lists each table's directory, keeps names ending in
`.csv.gpg` paired with their modification times, and — when any remain —
sorts with Python's `list.sort(key=lambda x: x[1], reverse=True)` and
downloads the entry at index 0.  Python's sort is stable, also with
`reverse=True`: entries with equal keys keep their original listing order.
That is modelled with `List.insertionSort` under the total preorder
"modification time at least as large", which is sorted descending, a
permutation, and stable — the three properties that characterise the result
of the Python call. -/

/-- A candidate file: `(filename, st_mtime)` as collected by
`download_files`. -/
abbrev Candidate := String × Int

/-- Python's stable descending sort of candidates by modification time. -/
def sortByMtimeDesc (files : List Candidate) : List Candidate :=
  files.insertionSort (fun a b => b.2 ≤ a.2)

/-- Per-table snapshot selection of `download_files`: `None` when no
candidate remains, otherwise the name at index 0 of the stable descending
sort. -/
def selectLatest (files : List Candidate) : Option String :=
  match sortByMtimeDesc files with
  | [] => none
  | f :: _ => some f.1

/-- Candidate filtering of `download_files`: only names ending in
`.csv.gpg` are kept (paired with their modification times). -/
def gpgCandidates (listing : List Candidate) : List Candidate :=
  listing.filter (fun f => pyEndsWith f.1 ".csv.gpg")

/-- The download phase across all tables: one selection per table listing;
tables with no candidate are skipped (`continue`), the rest contribute the
single selected file. -/
def downloadFiles (listings : List (List Candidate)) : List String :=
  listings.filterMap (fun l => selectLatest (gpgCandidates l))

/-- The phases of `process_daily_exports`, in source order. -/
inductive Phase where
  | download
  | decryptPhase
  | upload
  | triggerEtl
  | cleanup
deriving DecidableEq, Repr

/-- Outcome of one ingestion run: the boolean returned by
`process_daily_exports` and the list of phases that were entered. -/
structure IngestOutcome where
  success : Bool
  phases : List Phase
deriving DecidableEq, Repr

/-- The orchestration of `process_daily_exports`.  The external effects are
abstracted as functions: `decryptOk` says which downloaded files decrypt
successfully (`decrypt_files` keeps exactly those), and `uploadKey` gives the
S3 key for files whose name matches the vendor pattern and whose upload
succeeds (`upload_to_s3` keeps exactly those).  `trigger_glue_etl` returns
without starting a job when the uploaded list is empty. -/
def processDailyExports (listings : List (List Candidate))
    (decryptOk : String → Bool) (uploadKey : String → Option String) :
    IngestOutcome :=
  let downloaded := downloadFiles listings
  if downloaded.isEmpty then
    { success := false, phases := [Phase.download] }
  else
    let decrypted := downloaded.filter decryptOk
    if decrypted.isEmpty then
      { success := false, phases := [Phase.download, Phase.decryptPhase] }
    else
      let uploaded := decrypted.filterMap uploadKey
      { success := true
        phases := [Phase.download, Phase.decryptPhase, Phase.upload] ++
          (if uploaded.isEmpty then [] else [Phase.triggerEtl]) ++
          [Phase.cleanup] }

/-- The process exit code chosen by `main` from the run's boolean result:
`exit(0)` on `True`, `exit(1)` on `False`. -/
def mainExitCode (success : Bool) : Nat :=
  if success then 0 else 1

/-! ### Delivery: Redshift → Segment lambda
(`scripts/lambda_redshift_to_segment.py`)

The delivered-set object is a JSON array in S3
(`processed_events/<code>_processed_events.json`); `get_processed_events`
parses it into a Python `set`, modelled as a `Finset String`.  The candidate
query of `get_vehicle_sales_events` selects from the view
`marketing.validated_vehicle_sales` with a date-range filter, a
`deal_number NOT IN (...)` clause built from the loaded set when that set is
non-empty, `ORDER BY purchase_date DESC` and `LIMIT 1000`.  The view's rows
are modelled with the four columns the control flow examines (`deal_number`,
`user_id`, `vin`, `purchase_date`) plus the remaining selected columns as an
opaque association list: they are cleaned field-by-field (string stripping
and `float` coercion) and copied into the event payload, but no branch of
the delivery logic depends on them. -/

/-- One row of `marketing.validated_vehicle_sales` as fetched by the query.
All columns are nullable. -/
structure SalesRecord where
  deal_number : Option String
  user_id : Option String
  vin : Option String
  purchase_date : Option String
  payload : List (String × Option String)
deriving DecidableEq, Repr

/-- Result of the S3 read performed by `get_processed_events`: a parsed JSON
array of identifiers, a missing object (`NoSuchKey`), a failed read (any
other client exception), or an unparsable body (`json.loads` raising, caught
by the generic handler). -/
inductive TrackerRead where
  | ok (ids : List String)
  | noSuchKey
  | readError
  | parseError
deriving DecidableEq, Repr

/-- `get_processed_events`: the parsed set on success, and the empty set for
a missing object and for every failed read or parse. -/
def getProcessedEvents : TrackerRead → Finset String
  | TrackerRead.ok ids => ids.toFinset
  | TrackerRead.noSuchKey => ∅
  | TrackerRead.readError => ∅
  | TrackerRead.parseError => ∅

/-- SQL comparison `col >= 'lit'` on a nullable text column: NULL compares
as unknown, hence false in `WHERE`. -/
def sqlGe (v : Option String) (lit : String) : Bool :=
  match v with
  | some x => strLe lit x
  | none => false

/-- SQL comparison `col <= 'lit'` on a nullable text column. -/
def sqlLe (v : Option String) (lit : String) : Bool :=
  match v with
  | some x => strLe x lit
  | none => false

/-- The `deal_number NOT IN ('..', ..)` clause that `get_vehicle_sales_events`
adds when the loaded set is non-empty.  When the clause is present, a NULL
`deal_number` makes `NOT IN` unknown, so the row is excluded; when the set is
empty no clause is emitted and every row passes. -/
def notInProcessed (d : Option String) (processed : Finset String) : Bool :=
  if processed = ∅ then true
  else
    match d with
    | some x => decide (x ∉ processed)
    | none => false

/-- The `WHERE` clause of the candidate query. -/
def queryFilter (startDate endDate : String) (processed : Finset String)
    (r : SalesRecord) : Bool :=
  sqlGe r.purchase_date startDate && sqlLe r.purchase_date endDate &&
    notInProcessed r.deal_number processed

/-- The candidate query of `get_vehicle_sales_events`: filter, `ORDER BY
purchase_date DESC` (stable descending sort on the date column), `LIMIT
1000`. -/
def getVehicleSalesEvents (view : List SalesRecord)
    (startDate endDate : String) (processed : Finset String) :
    List SalesRecord :=
  (((view.filter (queryFilter startDate endDate processed)).insertionSort
    (fun a b => sqlLe b.purchase_date (a.purchase_date.getD ""))).take 1000)

/-- Python truthiness of an optional string field, as tested by
`not record.get(field)`: missing, `None` and the empty string are falsy. -/
def falsyStr : Option String → Bool
  | none => true
  | some s => s.isEmpty

/-- A cleaned event as built by `clean_and_validate_event` once the three
required fields passed validation: the required fields are definite strings
(`str(...)` of non-falsy values), the purchase date is copied as-is, and the
remaining payload is carried through the per-field cleaning helpers. -/
structure CleanedEvent where
  deal_number : String
  user_id : String
  vin : String
  purchase_date : Option String
  payload : List (String × Option String)
deriving DecidableEq, Repr

/-- `clean_and_validate_event`: reject the record (return `None`) when any
of `deal_number`, `user_id`, `vin` is falsy, otherwise build the cleaned
event.  The per-field string/numeric cleaning of the payload does not affect
any claim; it is modelled as the identity on the opaque payload. -/
def cleanAndValidateEvent (r : SalesRecord) : Option CleanedEvent :=
  if falsyStr r.deal_number || falsyStr r.user_id || falsyStr r.vin then none
  else
    some { deal_number := r.deal_number.getD ""
           user_id := r.user_id.getD ""
           vin := r.vin.getD ""
           purchase_date := r.purchase_date
           payload := r.payload }

/-- `generate_segment_message_id`: `f"vp_{md5(f"vehicle_purchase_{deal}_{vin}")}"`
truncated to Segment's 50-character limit. -/
def generateSegmentMessageId (e : CleanedEvent) : String :=
  pySlice ("vp_" ++ md5Hex ("vehicle_purchase_" ++ e.deal_number ++ "_" ++ e.vin)) 50

/-- Timestamp normalisation of `convert_to_segment_track_event`: a date
string without a `T` gets `T12:00:00Z` appended; a missing purchase date
falls back to the current time (`nowIso`, an explicit parameter since the
model has no clock). -/
def segmentTimestamp (nowIso : String) : Option String → String
  | some s => if pyContains s 'T' then s else s ++ "T12:00:00Z"
  | none => nowIso

/-- The Segment Track envelope fields that the delivery logic examines; the
`properties` and `context` sub-objects are copied payload. -/
structure SegmentEvent where
  eventType : String
  messageId : String
  userId : String
  eventName : String
  timestamp : String
  deal_number : String
  vin : String
deriving DecidableEq, Repr

/-- `convert_to_segment_track_event` on a cleaned event. -/
def convertToSegmentTrackEvent (nowIso : String) (e : CleanedEvent) :
    SegmentEvent :=
  { eventType := "track"
    messageId := generateSegmentMessageId e
    userId := e.user_id
    eventName := "Vehicle Purchased"
    timestamp := segmentTimestamp nowIso e.purchase_date
    deal_number := e.deal_number
    vin := e.vin }

/-- Accumulator of the delivery loop of `process_vehicle_purchase_events`:
the running counters, the events handed to `send_event_to_segment`
(`invoked`, in order), the subset that returned success (`succeeded`), and
`processed_event_ids`. -/
structure LoopState where
  successCount : Nat
  failedCount : Nat
  invoked : List SegmentEvent
  succeeded : List SegmentEvent
  processedIds : List String
deriving DecidableEq, Repr

/-- The initial loop accumulator. -/
def initLoopState : LoopState :=
  { successCount := 0, failedCount := 0, invoked := [], succeeded := [],
    processedIds := [] }

/-- One iteration of the delivery loop: validate, convert, send.  A record
failing validation counts as failed and is never sent; a sent event counts
as success exactly when the HTTP call (the `sendOk` oracle) reports success,
and only then is its deal number appended to `processed_event_ids`. -/
def processOneEvent (sendOk : SegmentEvent → Bool) (nowIso : String)
    (s : LoopState) (r : SalesRecord) : LoopState :=
  match cleanAndValidateEvent r with
  | none => { s with failedCount := s.failedCount + 1 }
  | some ce =>
    let ev := convertToSegmentTrackEvent nowIso ce
    if sendOk ev then
      { s with successCount := s.successCount + 1
               invoked := s.invoked ++ [ev]
               succeeded := s.succeeded ++ [ev]
               processedIds := s.processedIds ++ [ce.deal_number] }
    else
      { s with failedCount := s.failedCount + 1
               invoked := s.invoked ++ [ev] }

/-- The delivery loop over the fetched events.  The source iterates in
batches of `batch_size` with a rate-limit pause between batches; the batch
boundaries do not change the visit order, so the loop is the plain
left-to-right fold. -/
def deliveryLoop (sendOk : SegmentEvent → Bool) (nowIso : String)
    (events : List SalesRecord) : LoopState :=
  events.foldl (processOneEvent sendOk nowIso) initLoopState

/-- Result of one full run of `process_vehicle_purchase_events`. -/
structure RunResult where
  loopState : LoopState
  persisted : Finset String
deriving DecidableEq

/-- `process_vehicle_purchase_events`: query the candidates (loading the
delivered set through `get_processed_events`), optionally truncate to
`max_events`, run the delivery loop, and — when any event succeeded —
re-read the delivered set and persist its union with the new deal numbers
(`mark_events_processed`).  Both reads observe the same stored object
`stored`, the run being the only writer. -/
def processVehiclePurchaseEvents (view : List SalesRecord)
    (stored : TrackerRead) (startDate endDate nowIso : String)
    (sendOk : SegmentEvent → Bool) (maxEvents : Option Nat) : RunResult :=
  let processed := getProcessedEvents stored
  let events := getVehicleSalesEvents view startDate endDate processed
  let events := match maxEvents with
    | some m => events.take m
    | none => events
  let final := deliveryLoop sendOk nowIso events
  let persisted :=
    if final.processedIds.isEmpty then getProcessedEvents stored
    else getProcessedEvents stored ∪ final.processedIds.toFinset
  { loopState := final, persisted := persisted }

/-! ### Spec-side definitions and concrete inputs used in the analysis -/

/-- The merge result as the spec describes it (§4.3 and claim C1): the old
table minus every row whose composite key tuple exactly equals the key tuple
of some incoming row, followed by the incoming rows.  This is the spec's
wording, to be compared with `mergeUpsert`, which is read off the SQL. -/
def claimedMergeResult (old batch : List VSRow) : List VSRow :=
  old.filter (fun r => !(batch.any (fun b => decide (keyTuple b = keyTuple r)))) ++ batch

/-- A stored row whose `dealno` key column is NULL (reachable: the cleaning
SQL only requires `vin`, `custno` and `salesdate` to be non-null). -/
def rowNullDealA : VSRow :=
  { nullRow with custno := some "C9", vin := some "V1",
                 rowlastupdatedutc := some 5, city := some "X" }

/-- An incoming row with the same (partly NULL) key tuple as `rowNullDealA`
but a different non-key field. -/
def rowNullDealB : VSRow :=
  { nullRow with custno := some "C9", vin := some "V1",
                 rowlastupdatedutc := some 5, city := some "Y" }

/-- A batch row with NULL `dealno` and NULL `rowlastupdatedutc`. -/
def rowNullKey : VSRow :=
  { nullRow with custno := some "C9", vin := some "V1" }

/-- A fully keyed row. -/
def rowDupA : VSRow :=
  { nullRow with dealno := some "D1", custno := some "C9", vin := some "V1",
                 rowlastupdatedutc := some 1, city := some "X" }

/-- A distinct row with the same composite key as `rowDupA`. -/
def rowDupB : VSRow :=
  { nullRow with dealno := some "D1", custno := some "C9", vin := some "V1",
                 rowlastupdatedutc := some 1, city := some "Y" }

/-- A fully keyed row with a key distinct from `rowDupA`'s. -/
def rowOtherKey : VSRow :=
  { nullRow with dealno := some "D2", custno := some "C3", vin := some "V7",
                 rowlastupdatedutc := some 2 }

/-- A marketing-view record with all required fields present. -/
def recValid : SalesRecord :=
  { deal_number := some "D1", user_id := some "U1", vin := some "V1",
    purchase_date := some "2024-05-01", payload := [] }

/-- A marketing-view record with the required `user_id` missing. -/
def recNoUser : SalesRecord :=
  { deal_number := some "D2", user_id := none, vin := some "V2",
    purchase_date := some "2024-05-02", payload := [] }

/-- The derived identifier of `recValid`'s business key, written out: it
equals `"vp_" ++ md5Hex "vehicle_purchase_D1_V1"`, as the kernel confirms
wherever this constant is used. -/
def recValidMessageId : String :=
  "vp_d556b7b1bd2c42174972bc0c03b2de60"

/-! ### Helper lemmas -/

/-- Two booleans are equal when they are true of the same propositions. -/
theorem bool_eq_of_true_iff {a b : Bool} (h : a = true ↔ b = true) : a = b := by
  cases a <;> cases b <;> simp_all

/-- SQL equality is reflexive on non-NULL values. -/
theorem sqlEq_self {α : Type} [DecidableEq α] {a : Option α} (h : a ≠ none) :
    sqlEq a a = true := by
  obtain ⟨x, rfl⟩ := Option.ne_none_iff_exists'.mp h
  simp [sqlEq]

/-- SQL equality is symmetric. -/
theorem sqlEq_comm {α : Type} [DecidableEq α] (a b : Option α) :
    sqlEq a b = sqlEq b a := by
  cases a <;> cases b <;> simp [sqlEq, eq_comm]

/-- A row with a complete key SQL-matches itself. -/
theorem keyMatch_self {r : VSRow} (h : keyComplete r) : keyMatch r r = true := by
  obtain ⟨h1, h2, h3, h4⟩ := h
  simp [keyMatch, sqlEq_self h1, sqlEq_self h2, sqlEq_self h3, sqlEq_self h4]

/-- The SQL key match is symmetric. -/
theorem keyMatch_comm (a b : VSRow) : keyMatch a b = keyMatch b a := by
  unfold keyMatch
  rw [sqlEq_comm a.dealno, sqlEq_comm a.custno, sqlEq_comm a.vin,
    sqlEq_comm a.rowlastupdatedutc]

/-- On rows with complete keys, the SQL key match coincides with equality of
the composite key tuples. -/
theorem keyMatch_eq_decide_keyTuple {t r : VSRow} (ht : keyComplete t)
    (hr : keyComplete r) : keyMatch t r = decide (keyTuple t = keyTuple r) := by
  obtain ⟨ht1, ht2, ht3, ht4⟩ := ht
  obtain ⟨hr1, hr2, hr3, hr4⟩ := hr
  obtain ⟨a1, e1⟩ := Option.ne_none_iff_exists'.mp ht1
  obtain ⟨a2, e2⟩ := Option.ne_none_iff_exists'.mp ht2
  obtain ⟨a3, e3⟩ := Option.ne_none_iff_exists'.mp ht3
  obtain ⟨a4, e4⟩ := Option.ne_none_iff_exists'.mp ht4
  obtain ⟨b1, f1⟩ := Option.ne_none_iff_exists'.mp hr1
  obtain ⟨b2, f2⟩ := Option.ne_none_iff_exists'.mp hr2
  obtain ⟨b3, f3⟩ := Option.ne_none_iff_exists'.mp hr3
  obtain ⟨b4, f4⟩ := Option.ne_none_iff_exists'.mp hr4
  simp [keyMatch, keyTuple, sqlEq, e1, e2, e3, e4, f1, f2, f3, f4, Prod.ext_iff,
    Bool.and_assoc]

/-- The merge, written as a filter of the old table followed by the batch. -/
theorem mergeUpsert_eq (target batch : List VSRow) :
    mergeUpsert target batch =
      target.filter (fun r => !(batch.any (fun t => keyMatch t r))) ++ batch := rfl

/-! ### C1: content of the merge -/

/-- C1, counterexample.  The claim states that after the merge the table
equals (old minus rows whose composite key exactly matches an incoming
row's) union (incoming rows).  With `rowNullDealA` stored and `rowNullDealB`
incoming, the two key tuples are exactly equal (`dealno` NULL on both
sides), yet the SQL delete predicate does not match NULL keys, so the old
row survives: the merged table keeps `rowNullDealA` while the claimed
content drops it. -/
theorem mergeUpsert_nullKey_content_cex :
    mergeUpsert [rowNullDealA] [rowNullDealB] = [rowNullDealA, rowNullDealB] ∧
    keyTuple rowNullDealB = keyTuple rowNullDealA ∧
    claimedMergeResult [rowNullDealA] [rowNullDealB] = [rowNullDealB] ∧
    mergeUpsert [rowNullDealA] [rowNullDealB] ≠
      claimedMergeResult [rowNullDealA] [rowNullDealB] := by
  refine ⟨by decide, by decide, by decide, by decide⟩

/-- C1, amended: for batches and tables whose rows all have complete
(non-NULL) composite keys, the merged table is exactly the old table minus
the rows whose key tuple equals some incoming row's key tuple, followed by
the incoming rows. -/
theorem mergeUpsert_keyComplete_content (old batch : List VSRow)
    (hOld : ∀ r ∈ old, keyComplete r) (hB : ∀ b ∈ batch, keyComplete b) :
    mergeUpsert old batch = claimedMergeResult old batch := by
  unfold mergeUpsert insertAll deleteMatching claimedMergeResult
  congr 1
  apply List.filter_congr
  intro r hr
  have hany : (batch.any fun t => keyMatch t r) =
      (batch.any fun b => decide (keyTuple b = keyTuple r)) := by
    apply bool_eq_of_true_iff
    simp only [List.any_eq_true]
    constructor
    · rintro ⟨t, ht, hm⟩
      exact ⟨t, ht, by rw [← keyMatch_eq_decide_keyTuple (hB t ht) (hOld r hr)]; exact hm⟩
    · rintro ⟨t, ht, hm⟩
      exact ⟨t, ht, by rw [keyMatch_eq_decide_keyTuple (hB t ht) (hOld r hr)]; exact hm⟩
  rw [hany]

/-- C1, witness: the amended theorem applied to a concrete one-row table and
a concrete fully keyed batch. -/
theorem mergeUpsert_keyComplete_content_witness :
    (∀ r ∈ [rowDupA], keyComplete r) ∧ (∀ b ∈ [rowOtherKey], keyComplete b) ∧
    mergeUpsert [rowDupA] [rowOtherKey] = claimedMergeResult [rowDupA] [rowOtherKey] :=
  ⟨by decide, by decide,
    mergeUpsert_keyComplete_content [rowDupA] [rowOtherKey] (by decide) (by decide)⟩

/-! ### C2: idempotence of the merge -/

/-- C2, counterexample.  Re-merging the identical one-row batch `rowNullKey`
(whose `dealno` and `rowlastupdatedutc` key columns are NULL) does not leave
the table unchanged: the delete predicate cannot match the row's NULL key
columns, so the second run re-inserts without deleting and the row count
grows from 1 to 2. -/
theorem mergeUpsert_nullKey_idempotence_cex :
    (mergeUpsert [] [rowNullKey]).length = 1 ∧
    (mergeUpsert (mergeUpsert [] [rowNullKey]) [rowNullKey]).length = 2 ∧
    mergeUpsert (mergeUpsert [] [rowNullKey]) [rowNullKey] ≠
      mergeUpsert [] [rowNullKey] := by
  refine ⟨by decide, by decide, by decide⟩

/-- C2, amended: merging the same batch a second time with no field changes
leaves the table (hence its row count and content) exactly as after the
first merge, provided every batch row has a complete (non-NULL) composite
key. -/
theorem mergeUpsert_idempotent_of_keyComplete (t batch : List VSRow)
    (hB : ∀ b ∈ batch, keyComplete b) :
    mergeUpsert (mergeUpsert t batch) batch = mergeUpsert t batch := by
  rw [mergeUpsert_eq t batch, mergeUpsert_eq _ batch, List.filter_append]
  have hbn : batch.filter (fun r => !(batch.any fun t' => keyMatch t' r)) = [] := by
    apply List.filter_eq_nil_iff.mpr
    intro b hb
    have hself : batch.any (fun t' => keyMatch t' b) = true :=
      List.any_eq_true.mpr ⟨b, hb, keyMatch_self (hB b hb)⟩
    simp [hself]
  rw [hbn, List.append_nil, List.filter_filter]
  congr 1
  apply List.filter_congr
  intro a _
  rw [Bool.and_self]

/-- C2, witness: the amended theorem applied to the empty table and the
concrete fully keyed batch `[rowDupA]`, twice. -/
theorem mergeUpsert_idempotent_witness :
    (∀ b ∈ [rowDupA], keyComplete b) ∧
    mergeUpsert (mergeUpsert [] [rowDupA]) [rowDupA] = mergeUpsert [] [rowDupA] :=
  ⟨by decide, mergeUpsert_idempotent_of_keyComplete [] [rowDupA] (by decide)⟩

/-! ### C3: at most one row per composite key -/

/-- One merge step preserves SQL key-uniqueness when the incoming batch is
itself SQL key-unique: surviving old rows match no batch row (that is why
they survived), and the append keeps both parts pairwise non-matching. -/
theorem keyUniqueSql_mergeUpsert {T B : List VSRow} (hT : keyUniqueSql T)
    (hB : keyUniqueSql B) : keyUniqueSql (mergeUpsert T B) := by
  unfold keyUniqueSql at *
  rw [mergeUpsert_eq, List.pairwise_append]
  refine ⟨List.Pairwise.filter _ hT, hB, ?_⟩
  intro a ha b hb
  rw [List.mem_filter] at ha
  have hpred : (B.any fun t => keyMatch t a) = false := by
    have := ha.2
    simpa using this
  have hba : keyMatch b a = false := by
    have hall := List.any_eq_false.mp hpred
    simpa using hall b hb
  rw [keyMatch_comm]
  exact hba

/-- C3, counterexample.  The claim asserts that the merge protocol keeps at
most one row per composite key even for batches that repeat a composite key.
The batch `[rowDupA, rowDupB]` carries one key twice; the merge inserts the
staging table wholesale, so the target ends up with two distinct rows whose
key tuples are equal. -/
theorem mergeUpsert_dupKeyBatch_cex :
    mergeUpsert [] [rowDupA, rowDupB] = [rowDupA, rowDupB] ∧
    keyTuple rowDupA = keyTuple rowDupB ∧
    rowDupA ≠ rowDupB ∧
    ¬ keyUniqueTuple (mergeUpsert [] [rowDupA, rowDupB]) := by
  refine ⟨by decide, by decide, by decide, by decide⟩

/-- C3, amended: across every sequence of merges starting from a table with
no two rows SQL-matching on the composite key, and with every incoming batch
itself free of SQL key matches between two of its rows, the table keeps at
most one row per (fully non-NULL) composite key. -/
theorem mergeUpsert_foldl_keyUniqueSql (batches : List (List VSRow))
    (T0 : List VSRow) (hT : keyUniqueSql T0)
    (hB : ∀ B ∈ batches, keyUniqueSql B) :
    keyUniqueSql (batches.foldl mergeUpsert T0) := by
  induction batches generalizing T0 with
  | nil => exact hT
  | cons B bs ih =>
    exact ih _ (keyUniqueSql_mergeUpsert hT (hB B (by simp)))
      (fun B' h => hB B' (by simp [h]))

/-- C3, witness: two concrete merges with distinct fully keyed singleton
batches starting from the empty table. -/
theorem mergeUpsert_foldl_keyUniqueSql_witness :
    keyUniqueSql ([[rowDupA], [rowOtherKey]].foldl mergeUpsert []) :=
  mergeUpsert_foldl_keyUniqueSql [[rowDupA], [rowOtherKey]] [] (by decide)
    (by decide)

/-! ### C4: snapshot selection -/

/-- The head of the stable descending sort carries a maximal modification
time and is the earliest listing entry attaining it: Python's stable
`sort(key=mtime, reverse=True)` keeps the original order among ties. -/
theorem sortByMtimeDesc_head_spec :
    ∀ (files : List Candidate) (f : Candidate) (t : List Candidate),
      sortByMtimeDesc files = f :: t →
      (∀ c ∈ files, c.2 ≤ f.2) ∧
      ∃ pre post, files = pre ++ f :: post ∧ ∀ c ∈ pre, c.2 < f.2 := by
  intro files
  induction files with
  | nil => intro f t h; simp [sortByMtimeDesc] at h
  | cons a l ih =>
    intro f t h
    rw [show sortByMtimeDesc (a :: l) =
      List.orderedInsert (fun x y => y.2 ≤ x.2) a (sortByMtimeDesc l) from rfl] at h
    cases hsl : sortByMtimeDesc l with
    | nil =>
      have hl : l = [] := by
        have hlen := congrArg List.length hsl
        simp only [sortByMtimeDesc, List.length_insertionSort, List.length_nil] at hlen
        exact List.length_eq_zero.mp hlen
      rw [hsl] at h
      simp only [List.orderedInsert, List.cons.injEq] at h
      obtain ⟨rfl, rfl⟩ := h
      subst hl
      refine ⟨?_, [], [], rfl, by simp⟩
      intro c hc
      rw [List.mem_singleton] at hc
      exact hc ▸ le_refl _
    | cons b t' =>
      rw [hsl] at h
      simp only [List.orderedInsert] at h
      by_cases hab : b.2 ≤ a.2
      · rw [if_pos hab] at h
        injection h with h1 h2
        subst h1
        have ihs := ih b t' hsl
        refine ⟨?_, [], l, rfl, by simp⟩
        intro c hc
        rcases List.mem_cons.mp hc with rfl | hcl
        · exact le_refl _
        · exact le_trans (ihs.1 c hcl) hab
      · rw [if_neg hab] at h
        injection h with h1 h2
        subst h1
        obtain ⟨hmax, pre, post, hsplit, hpre⟩ := ih b t' hsl
        refine ⟨?_, a :: pre, post, by rw [List.cons_append, hsplit], ?_⟩
        · intro c hc
          rcases List.mem_cons.mp hc with rfl | hcl
          · exact le_of_lt (not_le.mp hab)
          · exact hmax c hcl
        · intro c hc
          rcases List.mem_cons.mp hc with rfl | hcp
          · exact not_le.mp hab
          · exact hpre c hcp

/-- C4, counterexample.  With two candidates carrying the same modification
time, `download_files` keeps the original listing order (Python's sort is
stable), so the earlier listing entry `"a.csv.gpg"` is selected even though
`"b.csv.gpg"` is lexicographically greater — the claimed filename-descending
tie-break does not hold. -/
theorem selectLatest_tieBreak_cex :
    selectLatest [("a.csv.gpg", 100), ("b.csv.gpg", 100)] = some "a.csv.gpg" ∧
    List.Lex (· < ·) "a.csv.gpg".data "b.csv.gpg".data ∧
    selectLatest [("a.csv.gpg", 100), ("b.csv.gpg", 100)] ≠ some "b.csv.gpg" := by
  refine ⟨by decide, by decide, by decide⟩

/-- C4, amended: an empty candidate list yields `none` and the dataset is
skipped without affecting the others; a non-empty candidate list yields
exactly one file, one with the maximum modification time, and among
candidates with equal maximal timestamps the one earliest in the listing
order (Python's stable sort), not the lexicographically greatest name. -/
theorem selectLatest_max_firstInListing (files : List Candidate) :
    selectLatest [] = none ∧
    (∀ ls1 ls2 : List (List Candidate),
      downloadFiles (ls1 ++ [[]] ++ ls2) = downloadFiles (ls1 ++ ls2)) ∧
    (files ≠ [] →
      ∃ f, f ∈ files ∧ selectLatest files = some f.1 ∧
        (∀ c ∈ files, c.2 ≤ f.2) ∧
        ∃ pre post, files = pre ++ f :: post ∧ ∀ c ∈ pre, c.2 < f.2) := by
  refine ⟨rfl, ?_, ?_⟩
  · intro ls1 ls2
    unfold downloadFiles
    have hmid :
        List.filterMap (fun l => selectLatest (gpgCandidates l)) [([] : List Candidate)] =
          [] := rfl
    rw [List.filterMap_append, List.filterMap_append, hmid, List.append_nil,
      ← List.filterMap_append]
  · intro hne
    cases hs : sortByMtimeDesc files with
    | nil =>
      exfalso
      apply hne
      have hlen := congrArg List.length hs
      simp only [sortByMtimeDesc, List.length_insertionSort, List.length_nil] at hlen
      exact List.length_eq_zero.mp hlen
    | cons f t =>
      obtain ⟨hmax, pre, post, hsplit, hpre⟩ := sortByMtimeDesc_head_spec files f t hs
      refine ⟨f, ?_, ?_, hmax, pre, post, hsplit, hpre⟩
      · rw [hsplit]
        exact List.mem_append.mpr (Or.inr (List.mem_cons_self _ _))
      · simp [selectLatest, hs]

/-- C4, witness: the amended theorem applied to a concrete singleton
candidate list. -/
theorem selectLatest_max_firstInListing_witness :
    ∃ f, f ∈ ([("x.csv.gpg", 7)] : List Candidate) ∧
      selectLatest [("x.csv.gpg", 7)] = some f.1 ∧
      (∀ c ∈ ([("x.csv.gpg", 7)] : List Candidate), c.2 ≤ f.2) ∧
      ∃ pre post, ([("x.csv.gpg", 7)] : List Candidate) = pre ++ f :: post ∧
        ∀ c ∈ pre, c.2 < f.2 :=
  (selectLatest_max_firstInListing [("x.csv.gpg", 7)]).2.2 (by decide)

/-! ### C9: a run with zero downloads aborts before any later phase -/

/-- C9.  When the download phase yields no file at all, the run returns the
failure outcome having entered only the download phase: no decryption, no
S3 upload and no ETL trigger occur, and `main` exits with status 1. -/
theorem zero_downloads_aborts_run (listings : List (List Candidate))
    (decryptOk : String → Bool) (uploadKey : String → Option String)
    (h : downloadFiles listings = []) :
    processDailyExports listings decryptOk uploadKey =
      { success := false, phases := [Phase.download] } ∧
    mainExitCode (processDailyExports listings decryptOk uploadKey).success = 1 ∧
    Phase.decryptPhase ∉ (processDailyExports listings decryptOk uploadKey).phases ∧
    Phase.upload ∉ (processDailyExports listings decryptOk uploadKey).phases ∧
    Phase.triggerEtl ∉ (processDailyExports listings decryptOk uploadKey).phases := by
  have hrun : processDailyExports listings decryptOk uploadKey =
      { success := false, phases := [Phase.download] } := by
    unfold processDailyExports
    rw [h]
    rfl
  refine ⟨hrun, ?_, ?_, ?_, ?_⟩ <;> rw [hrun] <;> decide

/-- C9, witness: a listing whose only file is not a `.csv.gpg` export, so
nothing is downloaded. -/
theorem zero_downloads_aborts_run_witness :
    processDailyExports [[("VehicleSales_notes.txt", 3)]] (fun _ => true)
        (fun f => some f) =
      { success := false, phases := [Phase.download] } ∧
    mainExitCode (processDailyExports [[("VehicleSales_notes.txt", 3)]]
        (fun _ => true) (fun f => some f)).success = 1 ∧
    Phase.decryptPhase ∉ (processDailyExports [[("VehicleSales_notes.txt", 3)]]
        (fun _ => true) (fun f => some f)).phases ∧
    Phase.upload ∉ (processDailyExports [[("VehicleSales_notes.txt", 3)]]
        (fun _ => true) (fun f => some f)).phases ∧
    Phase.triggerEtl ∉ (processDailyExports [[("VehicleSales_notes.txt", 3)]]
        (fun _ => true) (fun f => some f)).phases :=
  zero_downloads_aborts_run [[("VehicleSales_notes.txt", 3)]] (fun _ => true)
    (fun f => some f) (by decide)

/-! ### C10: the delivered set defaults to empty on every failed read -/

/-- C10.  `get_processed_events` returns the empty set not only for a
missing object but for every failed read and for an unparsable body, and
with such an empty load the candidate query excludes nothing — every
previously delivered identifier becomes a candidate again in that run. -/
theorem getProcessedEvents_empty_on_failure :
    getProcessedEvents TrackerRead.noSuchKey = ∅ ∧
    getProcessedEvents TrackerRead.readError = ∅ ∧
    getProcessedEvents TrackerRead.parseError = ∅ ∧
    (∀ (view : List SalesRecord) (startDate endDate : String),
      getVehicleSalesEvents view startDate endDate
          (getProcessedEvents TrackerRead.readError) =
        getVehicleSalesEvents view startDate endDate ∅) := by
  exact ⟨rfl, rfl, rfl, fun _ _ _ => rfl⟩

/-! ### C7: the derived message identifier -/

/-- C7.  `generate_segment_message_id` is a pure function of the deal number
and VIN: two cleaned events agreeing on those two fields receive the same
identifier (there is no random or time-varying input in its definition), and
the identifier is truncated to at most 50 characters. -/
theorem generateSegmentMessageId_deterministic_bounded (e1 e2 : CleanedEvent) :
    (e1.deal_number = e2.deal_number → e1.vin = e2.vin →
      generateSegmentMessageId e1 = generateSegmentMessageId e2) ∧
    (generateSegmentMessageId e1).length ≤ 50 := by
  constructor
  · intro h1 h2
    unfold generateSegmentMessageId
    rw [h1, h2]
  · unfold generateSegmentMessageId pySlice
    have hlen : ∀ l : List Char, (String.mk l).length = l.length := fun _ => rfl
    rw [hlen, List.length_take]
    exact min_le_left _ _

set_option maxRecDepth 8000 in
/-- C7, witness: two concrete cleaned events sharing the business key but
differing in every other field receive the same identifier, of length at
most 50. -/
theorem generateSegmentMessageId_witness :
    generateSegmentMessageId
        { deal_number := "D1", user_id := "U1", vin := "V1",
          purchase_date := some "2024-05-01", payload := [] } =
      generateSegmentMessageId
        { deal_number := "D1", user_id := "U2", vin := "V1",
          purchase_date := none, payload := [("color", some "red")] } ∧
    (generateSegmentMessageId
        { deal_number := "D1", user_id := "U1", vin := "V1",
          purchase_date := some "2024-05-01", payload := [] }).length ≤ 50 :=
  ⟨(generateSegmentMessageId_deterministic_bounded
      { deal_number := "D1", user_id := "U1", vin := "V1",
        purchase_date := some "2024-05-01", payload := [] }
      { deal_number := "D1", user_id := "U2", vin := "V1",
        purchase_date := none, payload := [("color", some "red")] }).1 rfl rfl,
    (generateSegmentMessageId_deterministic_bounded
      { deal_number := "D1", user_id := "U1", vin := "V1",
        purchase_date := some "2024-05-01", payload := [] }
      { deal_number := "D1", user_id := "U2", vin := "V1",
        purchase_date := none, payload := [("color", some "red")] }).2⟩

/-! ### C8: invalid records are rejected locally -/

/-- Bumping the failure counter commutes with one loop iteration: the
iteration reads no counter, it only adds its own deltas. -/
theorem processOneEvent_bumpFailed (sendOk : SegmentEvent → Bool)
    (nowIso : String) (s : LoopState) (r : SalesRecord) :
    processOneEvent sendOk nowIso { s with failedCount := s.failedCount + 1 } r =
      { processOneEvent sendOk nowIso s r with
          failedCount := (processOneEvent sendOk nowIso s r).failedCount + 1 } := by
  unfold processOneEvent
  cases cleanAndValidateEvent r with
  | none => rfl
  | some ce =>
    by_cases hs : sendOk (convertToSegmentTrackEvent nowIso ce) <;> simp [hs]

/-- Bumping the failure counter commutes with the whole remaining fold. -/
theorem deliveryFold_bumpFailed (sendOk : SegmentEvent → Bool) (nowIso : String) :
    ∀ (l : List SalesRecord) (s : LoopState),
      l.foldl (processOneEvent sendOk nowIso) { s with failedCount := s.failedCount + 1 } =
        { l.foldl (processOneEvent sendOk nowIso) s with
            failedCount := (l.foldl (processOneEvent sendOk nowIso) s).failedCount + 1 } := by
  intro l
  induction l with
  | nil => intro s; rfl
  | cons r rs ih =>
    intro s
    rw [List.foldl_cons, List.foldl_cons, processOneEvent_bumpFailed, ih]

/-- C8.  A record missing a required identifying field (deal number, user
id, or VIN — absent, `None`, or empty) is rejected locally: relative to the
same run without it, the failure count rises by one while the invoked
events, the success count and the tracked identifiers are unchanged — it is
never transmitted, its identifier is never recorded, and the surrounding
records are processed identically. -/
theorem invalid_record_rejected_locally (pre post : List SalesRecord)
    (r : SalesRecord) (sendOk : SegmentEvent → Bool) (nowIso : String)
    (h : (falsyStr r.deal_number || falsyStr r.user_id || falsyStr r.vin) = true) :
    (deliveryLoop sendOk nowIso (pre ++ r :: post)).invoked =
      (deliveryLoop sendOk nowIso (pre ++ post)).invoked ∧
    (deliveryLoop sendOk nowIso (pre ++ r :: post)).processedIds =
      (deliveryLoop sendOk nowIso (pre ++ post)).processedIds ∧
    (deliveryLoop sendOk nowIso (pre ++ r :: post)).successCount =
      (deliveryLoop sendOk nowIso (pre ++ post)).successCount ∧
    (deliveryLoop sendOk nowIso (pre ++ r :: post)).failedCount =
      (deliveryLoop sendOk nowIso (pre ++ post)).failedCount + 1 := by
  have hreject : cleanAndValidateEvent r = none := by
    unfold cleanAndValidateEvent
    rw [if_pos h]
  have hstep : ∀ s, processOneEvent sendOk nowIso s r =
      { s with failedCount := s.failedCount + 1 } := by
    intro s
    unfold processOneEvent
    rw [hreject]
  have hsplit : deliveryLoop sendOk nowIso (pre ++ r :: post) =
      { deliveryLoop sendOk nowIso (pre ++ post) with
          failedCount := (deliveryLoop sendOk nowIso (pre ++ post)).failedCount + 1 } := by
    unfold deliveryLoop
    rw [List.foldl_append, List.foldl_cons, hstep, deliveryFold_bumpFailed,
      ← List.foldl_append]
  rw [hsplit]
  exact ⟨rfl, rfl, rfl, rfl⟩

/-- C8, witness: dropping a record with a missing user id from a concrete
two-record batch changes only the failure count. -/
theorem invalid_record_rejected_locally_witness :
    (deliveryLoop (fun _ => true) "T" ([] ++ recNoUser :: [recValid])).invoked =
      (deliveryLoop (fun _ => true) "T" ([] ++ [recValid])).invoked ∧
    (deliveryLoop (fun _ => true) "T" ([] ++ recNoUser :: [recValid])).processedIds =
      (deliveryLoop (fun _ => true) "T" ([] ++ [recValid])).processedIds ∧
    (deliveryLoop (fun _ => true) "T" ([] ++ recNoUser :: [recValid])).successCount =
      (deliveryLoop (fun _ => true) "T" ([] ++ [recValid])).successCount ∧
    (deliveryLoop (fun _ => true) "T" ([] ++ recNoUser :: [recValid])).failedCount =
      (deliveryLoop (fun _ => true) "T" ([] ++ [recValid])).failedCount + 1 :=
  invalid_record_rejected_locally [] [recValid] recNoUser (fun _ => true) "T"
    (by decide)

/-! ### C6: the persisted delivered set -/

/-- Along the delivery loop, the tracked identifier list is exactly the deal
numbers of the successfully sent events, in order. -/
theorem deliveryFold_ids_eq_succeeded (sendOk : SegmentEvent → Bool)
    (nowIso : String) :
    ∀ (events : List SalesRecord) (s : LoopState),
      s.processedIds = s.succeeded.map (fun e => e.deal_number) →
      (events.foldl (processOneEvent sendOk nowIso) s).processedIds =
        ((events.foldl (processOneEvent sendOk nowIso) s).succeeded).map
          (fun e => e.deal_number) := by
  intro events
  induction events with
  | nil => intro s hs; exact hs
  | cons r rs ih =>
    intro s hs
    rw [List.foldl_cons]
    apply ih
    unfold processOneEvent
    cases cleanAndValidateEvent r with
    | none => exact hs
    | some ce =>
      have hproj : (convertToSegmentTrackEvent nowIso ce).deal_number =
          ce.deal_number := rfl
      by_cases hsend : sendOk (convertToSegmentTrackEvent nowIso ce)
      · simp [hsend, hs, List.map_append, hproj]
      · simp [hsend, hs]

/-- C6.  Over a full run, an identifier enters `processed_event_ids` only as
the deal number of a successfully delivered event, and the persisted set is
exactly the union of the loaded set with those new identifiers; in
particular the stored set only grows and is never pruned. -/
theorem persisted_set_union_of_succeeded (view : List SalesRecord)
    (stored : TrackerRead) (startDate endDate nowIso : String)
    (sendOk : SegmentEvent → Bool) (maxEvents : Option Nat) :
    (processVehiclePurchaseEvents view stored startDate endDate nowIso sendOk
        maxEvents).persisted =
      getProcessedEvents stored ∪
        (processVehiclePurchaseEvents view stored startDate endDate nowIso sendOk
          maxEvents).loopState.processedIds.toFinset ∧
    getProcessedEvents stored ⊆
      (processVehiclePurchaseEvents view stored startDate endDate nowIso sendOk
        maxEvents).persisted ∧
    (processVehiclePurchaseEvents view stored startDate endDate nowIso sendOk
        maxEvents).loopState.processedIds =
      ((processVehiclePurchaseEvents view stored startDate endDate nowIso sendOk
        maxEvents).loopState.succeeded).map (fun e => e.deal_number) := by
  unfold processVehiclePurchaseEvents
  dsimp only
  refine ⟨?_, ?_, ?_⟩
  · by_cases he :
      (deliveryLoop sendOk nowIso
        (match maxEvents with
          | some m =>
            (getVehicleSalesEvents view startDate endDate
              (getProcessedEvents stored)).take m
          | none =>
            getVehicleSalesEvents view startDate endDate
              (getProcessedEvents stored))).processedIds.isEmpty
    · rw [if_pos he, List.isEmpty_iff.mp he]
      simp
    · rw [if_neg he]
  · by_cases he :
      (deliveryLoop sendOk nowIso
        (match maxEvents with
          | some m =>
            (getVehicleSalesEvents view startDate endDate
              (getProcessedEvents stored)).take m
          | none =>
            getVehicleSalesEvents view startDate endDate
              (getProcessedEvents stored))).processedIds.isEmpty
    · rw [if_pos he]
    · rw [if_neg he]
      exact Finset.subset_union_left
  · exact deliveryFold_ids_eq_succeeded sendOk nowIso _ initLoopState rfl

/-! ### C5: the pushed-down exclusion filter -/

/-- Every event handed to `send_event_to_segment` in a run originates in a
record of the fetched candidate list, validated and converted. -/
theorem deliveryFold_invoked_sources (sendOk : SegmentEvent → Bool)
    (nowIso : String) :
    ∀ (events : List SalesRecord) (s0 : LoopState) (ev : SegmentEvent),
      ev ∈ (events.foldl (processOneEvent sendOk nowIso) s0).invoked →
      ev ∈ s0.invoked ∨ ∃ r ∈ events, ∃ ce, cleanAndValidateEvent r = some ce ∧
        ev = convertToSegmentTrackEvent nowIso ce := by
  intro events
  induction events with
  | nil => intro s0 ev h; exact Or.inl h
  | cons r rs ih =>
    intro s0 ev h
    rw [List.foldl_cons] at h
    rcases ih _ ev h with h0 | ⟨r', hr', ce, hce, hev⟩
    · unfold processOneEvent at h0
      cases hc : cleanAndValidateEvent r with
      | none =>
        rw [hc] at h0
        exact Or.inl h0
      | some ce =>
        rw [hc] at h0
        dsimp only at h0
        by_cases hs : sendOk (convertToSegmentTrackEvent nowIso ce)
        · rw [if_pos hs] at h0
          dsimp only at h0
          rcases List.mem_append.mp h0 with hin | hone
          · exact Or.inl hin
          · rw [List.mem_singleton] at hone
            exact Or.inr ⟨r, List.mem_cons_self _ _, ce, hc, hone⟩
        · rw [if_neg hs] at h0
          dsimp only at h0
          rcases List.mem_append.mp h0 with hin | hone
          · exact Or.inl hin
          · rw [List.mem_singleton] at hone
            exact Or.inr ⟨r, List.mem_cons_self _ _, ce, hc, hone⟩
    · exact Or.inr ⟨r', List.mem_cons_of_mem r hr', ce, hce, hev⟩

/-- A record returned by the candidate query carries a deal number outside
the loaded delivered set: the `NOT IN` clause is part of the query itself. -/
theorem queried_deal_not_in_processed (view : List SalesRecord)
    (startDate endDate : String) (processed : Finset String) (r : SalesRecord)
    (hr : r ∈ getVehicleSalesEvents view startDate endDate processed)
    (d : String) (hd : r.deal_number = some d) : d ∉ processed := by
  unfold getVehicleSalesEvents at hr
  have hrf := (List.mem_insertionSort _).mp (List.mem_of_mem_take hr)
  have hqf : queryFilter startDate endDate processed r = true :=
    (List.mem_filter.mp hrf).2
  have hnotin : notInProcessed r.deal_number processed = true := by
    unfold queryFilter at hqf
    simp only [Bool.and_eq_true] at hqf
    exact hqf.2
  unfold notInProcessed at hnotin
  by_cases hp : processed = ∅
  · rw [hp]
    exact Finset.not_mem_empty d
  · rw [if_neg hp, hd] at hnotin
    exact of_decide_eq_true hnotin

set_option maxRecDepth 8000 in
set_option maxHeartbeats 1600000 in
/-- C5, counterexample.  The claim says the query-side exclusion guarantees
that the publisher is never invoked for a record whose derived identifier is
in the loaded delivered set.  But the set stores raw deal numbers, while the
derived identifier is the `vp_`-prefixed MD5 of the business key — two
different strings.  With the delivered set containing exactly `recValid`'s
derived identifier, `recValid` still passes the `deal_number NOT IN (...)`
filter (its deal number `"D1"` is not in the set) and is published, although
its derived identifier is in the loaded set. -/
theorem invoked_messageId_in_loaded_set_cex :
    ((processVehiclePurchaseEvents [recValid] (TrackerRead.ok [recValidMessageId])
        "2020-01-01" "2030-01-01" "2024-06-01T00:00:00Z" (fun _ => true)
        none).loopState.invoked).map (fun ev => ev.messageId) =
      [recValidMessageId] ∧
    recValidMessageId ∈ getProcessedEvents (TrackerRead.ok [recValidMessageId]) := by
  refine ⟨by rfl, by decide⟩

/-- C5, amended: the exclusion pushed into the query is on deal numbers, the
identifiers that the tracker actually stores: the publisher is never invoked
in a run for an event whose deal number is in the loaded delivered set. -/
theorem invoked_dealNumber_not_in_loaded_set (view : List SalesRecord)
    (stored : TrackerRead) (startDate endDate nowIso : String)
    (sendOk : SegmentEvent → Bool) (maxEvents : Option Nat) (ev : SegmentEvent)
    (hev : ev ∈ (processVehiclePurchaseEvents view stored startDate endDate nowIso
      sendOk maxEvents).loopState.invoked) :
    ev.deal_number ∉ getProcessedEvents stored := by
  unfold processVehiclePurchaseEvents deliveryLoop at hev
  dsimp only at hev
  rcases deliveryFold_invoked_sources sendOk nowIso _ initLoopState ev hev with
    h0 | ⟨r, hr, ce, hce, hevv⟩
  · simp [initLoopState] at h0
  · have hrq : r ∈ getVehicleSalesEvents view startDate endDate
        (getProcessedEvents stored) := by
      cases maxEvents with
      | none => exact hr
      | some m => exact List.mem_of_mem_take hr
    unfold cleanAndValidateEvent at hce
    by_cases hb : (falsyStr r.deal_number || falsyStr r.user_id ||
        falsyStr r.vin) = true
    · rw [if_pos hb] at hce
      exact absurd hce (by simp)
    · rw [if_neg hb] at hce
      simp only [Bool.or_eq_true, not_or, Bool.not_eq_true] at hb
      cases hd : r.deal_number with
      | none =>
        rw [hd] at hb
        simp [falsyStr] at hb
      | some d =>
        have hced : ce.deal_number = d := by
          have hce' := Option.some.inj hce
          rw [← hce']
          dsimp only
          rw [hd]
          rfl
        subst hevv
        have heq : (convertToSegmentTrackEvent nowIso ce).deal_number =
            ce.deal_number := rfl
        rw [heq, hced]
        exact queried_deal_not_in_processed view startDate endDate
          (getProcessedEvents stored) r hrq d hd

set_option maxRecDepth 8000 in
set_option maxHeartbeats 1600000 in
/-- C5, amended claim witness: a concrete run in which one event is handed
to the publisher, whose deal number is indeed outside the loaded set. -/
theorem invoked_dealNumber_not_in_loaded_set_witness :
    (convertToSegmentTrackEvent "2024-06-01T00:00:00Z"
        { deal_number := "D1", user_id := "U1", vin := "V1",
          purchase_date := some "2024-05-01", payload := [] }).deal_number ∉
      getProcessedEvents (TrackerRead.ok ["OTHER"]) :=
  invoked_dealNumber_not_in_loaded_set [recValid] (TrackerRead.ok ["OTHER"])
    "2020-01-01" "2030-01-01" "2024-06-01T00:00:00Z" (fun _ => true) none
    (convertToSegmentTrackEvent "2024-06-01T00:00:00Z"
      { deal_number := "D1", user_id := "U1", vin := "V1",
        purchase_date := some "2024-05-01", payload := [] })
    (by
      have h : (processVehiclePurchaseEvents [recValid] (TrackerRead.ok ["OTHER"])
          "2020-01-01" "2030-01-01" "2024-06-01T00:00:00Z" (fun _ => true)
          none).loopState.invoked =
          [convertToSegmentTrackEvent "2024-06-01T00:00:00Z"
            { deal_number := "D1", user_id := "U1", vin := "V1",
              purchase_date := some "2024-05-01", payload := [] }] := rfl
      rw [h]
      exact List.mem_singleton.mpr rfl)
